import Mathlib

/-!
# vym: scripting façade (`scripting.cpp`) and XML text helper (`xmlobj.cpp`)

A shallow embedding of the two source files.

Conventions of the embedding

* `QString` is a Lean `String`.  All patterns and keys of the source are ASCII,
  so comparing Unicode scalar values instead of UTF-16 code units makes no
  difference to prefix tests and literal matching.
* C++ `int` is a Lean `Int`.  The only arithmetic in the two files is
  `curindent++`, `curindent--`, `curindent*indentwidth` and `slideCount() - 1`;
  signed overflow is undefined behaviour in C++ and lies outside the model.
* The document model (`VymModel`), its branches and the script context are
  external collaborators.  The model is an abstract state `M` with an
  interface `VymModel M`; the wrapper records each command it sends to the
  model in `calls` and each error it throws into the script context in
  `thrown`.
* `qDebug()` output is diagnostic only and is not part of the state.
-/

namespace Vym

/-! ## Script context and document model interface -/

/-- The error categories of `QScriptContext::Error`. -/
inductive Error
  | UnknownError
  | ReferenceError
  | SyntaxError
  | TypeError
  | RangeError
  | URIError
  deriving DecidableEq, Repr

/-- An error text as built in the source: a literal or `QString::arg` applied to a text.
The place-marker substitution of `arg` is kept symbolic. -/
inductive Text
  | lit (s : String)
  | arg (t : Text) (a : String)
  deriving DecidableEq, Repr

/-- A branch of the map (`BranchItem *`), identified by a handle. -/
abbrev BranchItem := Nat

/-- An image of the map (`ImageItem *`), identified by a handle. -/
abbrev ImageItem := Nat

/-- The geometric object of a branch (`BranchObj *`), identified by a handle. -/
abbrev BranchObj := Nat

/-- The commands `scripting.cpp` sends to the model or to a branch of the model;
each constructor carries the arguments of the C++ call. -/
inductive ModelCall
  | addNewBranch
  | addNewBranchBefore
  | scrollBranch (selbi : BranchItem)
  | unscrollBranch (selbi : BranchItem)
  | selectFirstBranch
  | selectLastBranch
  | select (ii : ImageItem)
  | activateStandardFlag (selbi : BranchItem) (s : String)
  | deactivateStandardFlag (selbi : BranchItem) (s : String)
  | setURL (selbi : BranchItem) (s : String)
  | setVymLink (selbi : BranchItem) (s : String)
  | exportAO (filename : String) (askName : Bool)
  | exportASCII (listTasks : Bool) (filename : String) (askName : Bool)
  | exportCSV (filename : String) (askName : Bool)
  | exportHTML (path : String) (filename : String) (askName : Bool)
  | exportImage (filename : String) (askName : Bool) (format : String)
  | exportImpress (filename : String) (templ : String)
  | exportLast
  | exportLaTeX (filename : String) (askName : Bool)
  | exportOrgMode (filename : String) (askName : Bool)
  | exportPDF (filename : String) (askName : Bool)
  | exportXML (path : String) (filename : String) (askName : Bool)
  deriving DecidableEq, Repr

/-- The interface `scripting.cpp` consumes from the document model with state `M`:
read-only queries, and `exec`, which runs a command and gives its boolean result
(ignored by callers of `void` commands) and the next model state. -/
structure VymModel (M : Type) where
  getSelectedBranch : M → Option BranchItem
  slideCount : M → Int
  branchCount : M → BranchItem → Int
  getLMO : M → BranchItem → Option BranchObj
  getFrameTypeName : M → BranchObj → String
  getLastImage : M → BranchItem → Option ImageItem
  exec : ModelCall → M → Bool × M

/-- The map façade together with what a script can observe of a call:
the model it is bound to, whether a script context is attached (`context()` non-null),
the errors thrown into the context, and the commands sent to the model. -/
structure VymModelWrapper (M : Type) where
  model : M
  context : Bool
  thrown : List (Error × Text)
  calls : List ModelCall

/-- `logError`: throw into the script context if there is one; otherwise only `qDebug`. -/
def logError {M : Type} (w : VymModelWrapper M) (error : Error) (text : Text) :
    VymModelWrapper M :=
  if w.context then { w with thrown := w.thrown ++ [(error, text)] } else w

/-- Send one command to the model: `model->c(...)` or `selbi->c(...)`. -/
def invoke {M : Type} (I : VymModel M) (c : ModelCall) (w : VymModelWrapper M) :
    Bool × VymModelWrapper M :=
  ((I.exec c w.model).1, { w with model := (I.exec c w.model).2, calls := w.calls ++ [c] })

/-- `VymModelWrapper::getSelectedBranch`. -/
def getSelectedBranch {M : Type} (I : VymModel M) (w : VymModelWrapper M) :
    Option BranchItem × VymModelWrapper M :=
  match I.getSelectedBranch w.model with
  | none => (none, logError w Error.ReferenceError (Text.lit "No branch selected"))
  | some selbi => (some selbi, w)

/-! ## Parameter lists -/

/-- The part of `QVariant` used by `getParameter`: invalid, or holding a string. -/
inductive QVariant
  | Invalid
  | str (s : String)
  deriving DecidableEq, Repr

/-- `QVariant::toString`: an invalid variant converts to the empty string. -/
def QVariant.toString : QVariant → String
  | QVariant.Invalid => ""
  | QVariant.str s => s

/-- `QVariant::toBool`: an invalid variant is false; a string is true unless its
lower-cased text is `"0"`, `"false"` or empty. -/
def QVariant.toBool : QVariant → Bool
  | QVariant.Invalid => false
  | QVariant.str s =>
    !(s.data.map Char.toLower = "0".data || s.data.map Char.toLower = "false".data
      || s.data.isEmpty)

/-- `QString::startsWith` (case sensitive). -/
def startsWith (par key : String) : Bool :=
  key.data.isPrefixOf par.data

/-- `VymModelWrapper::getParameter`: the out-parameter `ok` is the first component. -/
def getParameter (key : String) : List String → Bool × QVariant
  | [] => (false, QVariant.Invalid)
  | par :: parameters =>
    if startsWith par key then (true, QVariant.str par) else getParameter key parameters

/-- `QStringList::indexOf`, from index 0; -1 when absent. -/
def indexOf (x : String) : List String → Int
  | [] => -1
  | y :: ys => if y = x then 0 else if indexOf x ys < 0 then -1 else indexOf x ys + 1

/-- The image formats appended to `formats` in the `Image` branch of `exportMap`, in order. -/
def imageFormats : List String :=
  ["PNG", "GIF", "JPG", "JPEG", "PNG", "PBM", "PGM", "PPM", "TIFF", "XBM", "XPM"]

/-- `VymModelWrapper::exportMap`. -/
def exportMap {M : Type} (I : VymModel M) (format : String) (parameters : List String)
    (w : VymModelWrapper M) : Bool × VymModelWrapper M :=
  let filename := (getParameter "filename" parameters).2.toString
  if (getParameter "filename" parameters).1 = false ∧ format ≠ "Last" then
    (false, logError w Error.SyntaxError
      (Text.arg (Text.lit "Filename missing in export to %1") format))
  else if format = "AO" then
    (true, (invoke I (ModelCall.exportAO filename false) w).2)
  else if format = "ASCII" then
    let listTasks := (getParameter "listTasks" parameters).2.toBool
    (true, (invoke I (ModelCall.exportASCII listTasks filename false) w).2)
  else if format = "CSV" then
    (true, (invoke I (ModelCall.exportCSV filename false) w).2)
  else if format = "HTML" then
    let path := (getParameter "path" parameters).2.toString
    if (getParameter "path" parameters).1 = false then
      (false, logError w Error.SyntaxError
        (Text.arg (Text.lit "Path missing in export to %1") format))
    else
      (true, (invoke I (ModelCall.exportHTML path filename false) w).2)
  else if format = "Image" then
    let format1 := (getParameter "format" parameters).2.toString
    if (getParameter "format" parameters).1 = false then
      (true, (invoke I (ModelCall.exportImage filename false "PNG") w).2)
    else if indexOf format1 imageFormats < 0 then
      (false, logError w Error.SyntaxError
        (Text.arg (Text.arg (Text.lit "%1 not one of the known export formats: ") format1)
          (String.intercalate "," imageFormats)))
    else
      (true, (invoke I (ModelCall.exportImage filename false format1) w).2)
  else if format = "Impress" then
    let templ := (getParameter "template" parameters).2.toString
    if (getParameter "template" parameters).1 = false then
      (false, logError w Error.SyntaxError (Text.lit "Template missing in exportImpress"))
    else
      (true, (invoke I (ModelCall.exportImpress filename templ) w).2)
  else if format = "Last" then
    (true, (invoke I ModelCall.exportLast w).2)
  else if format = "LaTeX" then
    (true, (invoke I (ModelCall.exportLaTeX filename false) w).2)
  else if format = "OrgMode" then
    (true, (invoke I (ModelCall.exportOrgMode filename false) w).2)
  else if format = "PDF" then
    (true, (invoke I (ModelCall.exportPDF filename false) w).2)
  else if format = "SVG" then
    (true, (invoke I (ModelCall.exportPDF filename false) w).2)
  else if format = "XML" then
    let path := (getParameter "path" parameters).2.toString
    if (getParameter "path" parameters).1 = false then
      (false, logError w Error.SyntaxError
        (Text.arg (Text.lit "Path missing in export to %1") format))
    else
      (true, (invoke I (ModelCall.exportXML path filename false) w).2)
  else
    (false, logError w Error.SyntaxError
      (Text.arg (Text.lit "Unknown export format: %1") format))

/-- The export dispatch table as the specification words it: the keys a known
format requires in the parameter list; `none` for a format missing from the table. -/
def specRequiredKeys (format : String) : Option (List String) :=
  if format = "AO" then some ["filename"]
  else if format = "ASCII" then some ["filename"]
  else if format = "CSV" then some ["filename"]
  else if format = "HTML" then some ["filename", "path"]
  else if format = "Impress" then some ["filename", "template"]
  else if format = "Last" then some []
  else if format = "LaTeX" then some ["filename"]
  else if format = "OrgMode" then some ["filename"]
  else if format = "PDF" then some ["filename"]
  else if format = "SVG" then some ["filename"]
  else if format = "XML" then some ["filename", "path"]
  else none

/-- Some entry of the parameter list begins with `key`. -/
def hasEntry (key : String) (parameters : List String) : Prop :=
  ∃ par ∈ parameters, key.data <+: par.data

/-! ## Selection-scoped operations, slides -/

/-- `VymModelWrapper::addBranch`. -/
def addBranch {M : Type} (I : VymModel M) (w : VymModelWrapper M) : VymModelWrapper M :=
  match getSelectedBranch I w with
  | (some _, w1) =>
    if (invoke I ModelCall.addNewBranch w1).1 = false then
      logError (invoke I ModelCall.addNewBranch w1).2 Error.UnknownError
        (Text.lit "Couldn't add branch to map")
    else (invoke I ModelCall.addNewBranch w1).2
  | (none, w1) => w1

/-- `VymModelWrapper::addBranchBefore`. -/
def addBranchBefore {M : Type} (I : VymModel M) (w : VymModelWrapper M) : VymModelWrapper M :=
  if (invoke I ModelCall.addNewBranchBefore w).1 = false then
    logError (invoke I ModelCall.addNewBranchBefore w).2 Error.UnknownError
      (Text.lit "Couldn't add branch before selection to map")
  else (invoke I ModelCall.addNewBranchBefore w).2

/-- `VymModelWrapper::branchCount`. -/
def branchCount {M : Type} (I : VymModel M) (w : VymModelWrapper M) : Int × VymModelWrapper M :=
  match getSelectedBranch I w with
  | (some selbi, w1) => (I.branchCount w1.model selbi, w1)
  | (none, w1) => (-1, w1)

/-- `VymModelWrapper::getFrameType`. -/
def getFrameType {M : Type} (I : VymModel M) (w : VymModelWrapper M) :
    String × VymModelWrapper M :=
  match getSelectedBranch I w with
  | (some selbi, w1) =>
    match I.getLMO w1.model selbi with
    | none => ("", logError w1 Error.UnknownError (Text.lit "No BranchObj available"))
    | some bo => (I.getFrameTypeName w1.model bo, w1)
  | (none, w1) => ("", w1)

/-- `VymModelWrapper::removeSlide`. -/
def removeSlide {M : Type} (I : VymModel M) (n : Int) (w : VymModelWrapper M) :
    VymModelWrapper M :=
  if n < 0 ∨ n ≥ I.slideCount w.model - 1 then
    logError w Error.RangeError (Text.arg (Text.lit "Slide '%1' not available.") (toString n))
  else w

/-- `VymModelWrapper::scroll`. -/
def scroll {M : Type} (I : VymModel M) (w : VymModelWrapper M) : VymModelWrapper M :=
  match getSelectedBranch I w with
  | (some selbi, w1) =>
    if (invoke I (ModelCall.scrollBranch selbi) w1).1 = false then
      logError (invoke I (ModelCall.scrollBranch selbi) w1).2 Error.UnknownError
        (Text.lit "Couldn't scroll branch")
    else (invoke I (ModelCall.scrollBranch selbi) w1).2
  | (none, w1) => w1

/-- `VymModelWrapper::selectFirstBranch`. -/
def selectFirstBranch {M : Type} (I : VymModel M) (w : VymModelWrapper M) :
    Bool × VymModelWrapper M :=
  match getSelectedBranch I w with
  | (some _, w1) =>
    if (invoke I ModelCall.selectFirstBranch w1).1 = false then
      (false, logError (invoke I ModelCall.selectFirstBranch w1).2 Error.UnknownError
        (Text.lit "Couldn't select first branch"))
    else (true, (invoke I ModelCall.selectFirstBranch w1).2)
  | (none, w1) => (false, w1)

/-- `VymModelWrapper::selectLastBranch`. -/
def selectLastBranch {M : Type} (I : VymModel M) (w : VymModelWrapper M) :
    Bool × VymModelWrapper M :=
  match getSelectedBranch I w with
  | (some _, w1) =>
    if (invoke I ModelCall.selectLastBranch w1).1 = false then
      (false, logError (invoke I ModelCall.selectLastBranch w1).2 Error.UnknownError
        (Text.lit "Couldn't select last branch"))
    else (true, (invoke I ModelCall.selectLastBranch w1).2)
  | (none, w1) => (false, w1)

/-- `VymModelWrapper::selectLastImage`. -/
def selectLastImage {M : Type} (I : VymModel M) (w : VymModelWrapper M) :
    Bool × VymModelWrapper M :=
  match getSelectedBranch I w with
  | (some selbi, w1) =>
    match I.getLastImage w1.model selbi with
    | none => (false, logError w1 Error.UnknownError (Text.lit "Couldn't get last image"))
    | some ii =>
      if (invoke I (ModelCall.select ii) w1).1 = false then
        (false, logError (invoke I (ModelCall.select ii) w1).2 Error.UnknownError
          (Text.lit "Couldn't select last image"))
      else (true, (invoke I (ModelCall.select ii) w1).2)
  | (none, w1) => (false, w1)

/-- `VymModelWrapper::setFlag`. -/
def setFlag {M : Type} (I : VymModel M) (s : String) (w : VymModelWrapper M) :
    VymModelWrapper M :=
  match getSelectedBranch I w with
  | (some selbi, w1) => (invoke I (ModelCall.activateStandardFlag selbi s) w1).2
  | (none, w1) => w1

/-- `VymModelWrapper::setURL`. -/
def setURL {M : Type} (I : VymModel M) (s : String) (w : VymModelWrapper M) :
    VymModelWrapper M :=
  match getSelectedBranch I w with
  | (some selbi, w1) => (invoke I (ModelCall.setURL selbi s) w1).2
  | (none, w1) => w1

/-- `VymModelWrapper::setVymLink`. -/
def setVymLink {M : Type} (I : VymModel M) (s : String) (w : VymModelWrapper M) :
    VymModelWrapper M :=
  match getSelectedBranch I w with
  | (some selbi, w1) => (invoke I (ModelCall.setVymLink selbi s) w1).2
  | (none, w1) => w1

/-- `VymModelWrapper::unscroll`. -/
def unscroll {M : Type} (I : VymModel M) (w : VymModelWrapper M) : Bool × VymModelWrapper M :=
  match getSelectedBranch I w with
  | (some selbi, w1) =>
    if (invoke I (ModelCall.unscrollBranch selbi) w1).1 = true then
      (true, (invoke I (ModelCall.unscrollBranch selbi) w1).2)
    else
      (false, logError (invoke I (ModelCall.unscrollBranch selbi) w1).2 Error.UnknownError
        (Text.lit "Couldn't unscroll branch"))
  | (none, w1) => (false, w1)

/-- `VymModelWrapper::unsetFlag`. -/
def unsetFlag {M : Type} (I : VymModel M) (s : String) (w : VymModelWrapper M) :
    VymModelWrapper M :=
  match getSelectedBranch I w with
  | (some selbi, w1) => (invoke I (ModelCall.deactivateStandardFlag selbi s) w1).2
  | (none, w1) => w1

/-! ## XML text helper (`xmlobj.cpp`) -/

/-- One element of a compiled pattern, for the fragment of `QRegExp` syntax that
`xmlobj.cpp` uses: a literal character, or the negative lookahead `(?!text)`. -/
inductive RxItem
  | chr (c : Char)
  | notAhead (text : List Char)
  deriving DecidableEq, Repr

/-- A compiled `QRegExp`; `none` is an invalid pattern, which never matches. -/
abbrev QRegExp := Option (List RxItem)

/-- The characters with a special meaning in a `QRegExp` pattern. -/
def isSpecial (c : Char) : Bool :=
  c ∈ "$()*+.?[]^{|}\\".data

/-- Pattern compiler for the fragment: ordinary characters, a backslash escaping a
non-alphanumeric character, and `(?!text)` with literal `text`.  The first argument
holds the text of a lookahead that is being read.  A `)` without an opening
parenthesis makes the pattern invalid; constructs outside the fragment do not occur
in `xmlobj.cpp` and are rejected as well. -/
def parsePattern : Option (List Char) → List Char → QRegExp
  | none, [] => some []
  | some _, [] => none
  | none, c :: rest =>
    if c = Char.ofNat 92 then
      match rest with
      | [] => none
      | d :: rest1 =>
        if d.isAlphanum then none
        else (parsePattern none rest1).map (fun items => RxItem.chr d :: items)
    else if c = Char.ofNat 40 then
      match rest with
      | q :: e :: rest1 =>
        if q = Char.ofNat 63 ∧ e = Char.ofNat 33 then parsePattern (some []) rest1 else none
      | _ => none
    else if isSpecial c then none
    else (parsePattern none rest).map (fun items => RxItem.chr c :: items)
  | some text, c :: rest =>
    if c = Char.ofNat 41 then
      (parsePattern none rest).map (fun items => RxItem.notAhead text :: items)
    else if isSpecial c then none
    else parsePattern (some (text ++ [c])) rest

/-- `QRegExp rx(pattern)` and `rx.setPattern(pattern)`. -/
def QRegExp.ofPattern (pattern : String) : QRegExp :=
  parsePattern none pattern.data

/-- Match the compiled pattern at the start of the text: the matched length, if any. -/
def matchAt : List RxItem → List Char → Option Nat
  | [], _ => some 0
  | RxItem.chr _ :: _, [] => none
  | RxItem.chr c :: items, x :: xs =>
    if x = c then (matchAt items xs).map (fun n => n + 1) else none
  | RxItem.notAhead text :: items, xs =>
    if text.isPrefixOf xs then none else matchAt items xs

/-- The scan of `QString::replace(const QRegExp &, const QString &)`: left to right,
every non-overlapping match is replaced by `after`; `skip` counts the characters of
the current match still to be dropped.  After an empty match the scan moves on by
one character.  None of the replacement texts of `xmlobj.cpp` holds a back-reference
(a backslash followed by a digit), so `after` is inserted literally. -/
def replaceGo (items : List RxItem) (after : List Char) : Nat → List Char → List Char
  | _, [] => if matchAt items [] = some 0 then after else []
  | skip + 1, _ :: cs => replaceGo items after skip cs
  | 0, c :: cs =>
    match matchAt items (c :: cs) with
    | none => c :: replaceGo items after 0 cs
    | some 0 => after ++ c :: replaceGo items after 0 cs
    | some (n + 1) => after ++ replaceGo items after n cs

/-- `QString::replace(rx, after)`. -/
def replace (r : String) (rx : QRegExp) (after : String) : String :=
  match rx with
  | none => r
  | some items => ⟨replaceGo items after.data 0 r.data⟩

/-- `quotemeta`. -/
def quotemeta (s : String) : String :=
  let r := s
  let r := replace r (QRegExp.ofPattern "&(?!amp;)") "&amp;"
  let r := replace r (QRegExp.ofPattern ">") "&gt;"
  let r := replace r (QRegExp.ofPattern "<") "&lt;"
  let r := replace r (QRegExp.ofPattern "\"") "&quot;"
  r

/-- `unquotemeta`. -/
def unquotemeta (s : String) : String :=
  let r := s
  let r := replace r (QRegExp.ofPattern "&amp;)") "&"
  let r := replace r (QRegExp.ofPattern "&gt;") ">"
  let r := replace r (QRegExp.ofPattern "&lt;") "<"
  let r := replace r (QRegExp.ofPattern "&quot;") "\""
  r

/-- `quoteQuotes`. -/
def quoteQuotes (s : String) : String :=
  let r := s
  let r := replace r (QRegExp.ofPattern "\"") "\\\""
  r

/-- `unquoteQuotes`. -/
def unquoteQuotes (s : String) : String :=
  let r := s
  let r := replace r (QRegExp.ofPattern "\\\"") "\""
  r

/-- The per-object state of `XMLObj`; the constructor sets `indentwidth` to 4.
The static member `curindent` is passed to the methods explicitly. -/
structure XMLObj where
  indentwidth : Int := 4

/-- `XMLObj::incIndent`, on the static `curindent`. -/
def incIndent (curindent : Int) : Int :=
  curindent + 1

/-- `XMLObj::decIndent`, on the static `curindent`. -/
def decIndent (curindent : Int) : Int :=
  if curindent - 1 < 0 then 0 else curindent - 1

/-- The loop of `XMLObj::indent`: `k` iterations still to run, each appending a space. -/
def indentLoop : Nat → String → String
  | 0, s => s
  | k + 1, s => indentLoop k (s ++ " ")

/-- `XMLObj::indent`: the loop runs while `i < curindent*indentwidth`, from `i = 0`. -/
def XMLObj.indent (o : XMLObj) (curindent : Int) : String :=
  indentLoop (curindent * o.indentwidth).toNat "\n"

/-- `XMLObj::singleElement`. -/
def XMLObj.singleElement (o : XMLObj) (curindent : Int) (s a : String) : String :=
  o.indent curindent ++ "<" ++ s ++ " " ++ a ++ " " ++ "/>"

/-- `XMLObj::beginElement(QString s)`. -/
def XMLObj.beginElement (o : XMLObj) (curindent : Int) (s : String) : String :=
  o.indent curindent ++ "<" ++ s ++ ">"

/-- `XMLObj::beginElement(QString s, QString at)`. -/
def XMLObj.beginElementAt (o : XMLObj) (curindent : Int) (s a : String) : String :=
  o.indent curindent ++ "<" ++ s ++ " " ++ a ++ ">"

/-- `XMLObj::endElement`. -/
def XMLObj.endElement (o : XMLObj) (curindent : Int) (s : String) : String :=
  o.indent curindent ++ "</" ++ s ++ ">"

/-- `XMLObj::attribut`. -/
def XMLObj.attribut (_o : XMLObj) (a val : String) : String :=
  " " ++ a ++ "=\"" ++ quotemeta val ++ "\""

/-- `XMLObj::valueElement(QString el, QString val)`. -/
def XMLObj.valueElement (o : XMLObj) (curindent : Int) (el val : String) : String :=
  o.indent curindent ++ "<" ++ el ++ ">" ++ val ++ "</" ++ el ++ ">"

/-- `XMLObj::valueElement(QString el, QString val, QString at)`. -/
def XMLObj.valueElementAt (o : XMLObj) (curindent : Int) (el val a : String) : String :=
  o.indent curindent ++ "<" ++ el ++ " " ++ a ++ ">" ++ val ++ "</" ++ el ++ ">"

/-- A call of one of the two indent operations. -/
inductive IndentCall
  | incIndent
  | decIndent
  deriving DecidableEq, Repr

/-- Run a sequence of indent calls on `curindent`. -/
def runIndent : List IndentCall → Int → Int
  | [], curindent => curindent
  | IndentCall.incIndent :: calls, curindent => runIndent calls (incIndent curindent)
  | IndentCall.decIndent :: calls, curindent => runIndent calls (decIndent curindent)

/-! ## Concrete models used for evaluation -/

/-- A model without selection and without slides that refuses every command. -/
def refusingModel : VymModel Unit where
  getSelectedBranch := fun _ => none
  slideCount := fun _ => 0
  branchCount := fun _ _ => 0
  getLMO := fun _ _ => none
  getFrameTypeName := fun _ _ => ""
  getLastImage := fun _ _ => none
  exec := fun _ m => (false, m)

/-- A freshly bound façade with a script context attached. -/
def freshWrapper : VymModelWrapper Unit :=
  { model := (), context := true, thrown := [], calls := [] }

/-- What the selection guard leaves behind when it fails: one reference error thrown,
no command sent, the model untouched. -/
def GuardFailed {M : Type} (w w1 : VymModelWrapper M) : Prop :=
  w1.thrown = w.thrown ++ [(Error.ReferenceError, Text.lit "No branch selected")] ∧
  w1.calls = w.calls ∧ w1.model = w.model

/-- A newline followed by `n` spaces. -/
def newlinePad (n : Nat) : String :=
  "\n" ++ String.mk (List.replicate n ' ')

/-- The table condition of the specification: the format has a row and every
required key of the row has an entry in the parameter list. -/
def specAccepts (format : String) (parameters : List String) : Prop :=
  ∃ keys, specRequiredKeys format = some keys ∧ ∀ key ∈ keys, hasEntry key parameters

/-- Outcome of one `exportMap` call: success without error on an accepted request,
or one syntax error and no command on a request the table does not accept. -/
def ExportOutcome {M : Type} (I : VymModel M) (format : String) (parameters : List String)
    (w : VymModelWrapper M) : Prop :=
  ((exportMap I format parameters w).1 = true ∧
    (exportMap I format parameters w).2.thrown = w.thrown ∧
    specAccepts format parameters) ∨
  ((exportMap I format parameters w).1 = false ∧
    (∃ text, (exportMap I format parameters w).2.thrown
      = w.thrown ++ [(Error.SyntaxError, text)]) ∧
    (exportMap I format parameters w).2.calls = w.calls ∧
    (exportMap I format parameters w).2.model = w.model ∧
    ¬ specAccepts format parameters)

/-- The first replacement of `quotemeta` as a recursion on the text: an ampersand that
is not followed by `amp;` becomes `&amp;`, every other character is kept. -/
def ampStep : List Char → List Char
  | [] => []
  | c :: cs =>
    if c = '&' ∧ ¬ ['a', 'm', 'p', ';'] <+: cs then
      ['&', 'a', 'm', 'p', ';'] ++ ampStep cs
    else c :: ampStep cs

/-- The entity that the last three replacements of `quotemeta` put in place of a
character; other characters stay. -/
def entityOf (x : Char) : List Char :=
  if x = '>' then ['&', 'g', 't', ';']
  else if x = '<' then ['&', 'l', 't', ';']
  else if x = Char.ofNat 34 then ['&', 'q', 'u', 'o', 't', ';']
  else [x]

/-- The text after an ampersand begins with one of the four entity names. -/
def EntityTail (post : List Char) : Prop :=
  ['a', 'm', 'p', ';'] <+: post ∨ ['g', 't', ';'] <+: post ∨ ['l', 't', ';'] <+: post ∨
    ['q', 'u', 'o', 't', ';'] <+: post

/-- Every ampersand of the text is followed by one of the four entity names. -/
def AmpersandsEscaped : List Char → Prop
  | [] => True
  | c :: cs => (c = '&' → EntityTail cs) ∧ AmpersandsEscaped cs

/-! ## Auxiliary lemmas -/

theorem startsWith_iff (par key : String) : startsWith par key = true ↔ key.data <+: par.data := by
  simp [startsWith]

theorem getParameter_cons_hit (key par : String) (parameters : List String)
    (h : key.data <+: par.data) :
    getParameter key (par :: parameters) = (true, QVariant.str par) := by
  have hs : startsWith par key = true := (startsWith_iff par key).2 h
  simp [getParameter, hs]

theorem getParameter_cons_miss (key par : String) (parameters : List String)
    (h : ¬ key.data <+: par.data) :
    getParameter key (par :: parameters) = getParameter key parameters := by
  have hs : startsWith par key = false := by
    cases hsw : startsWith par key
    · rfl
    · exact absurd ((startsWith_iff par key).1 hsw) h
  simp [getParameter, hs]

theorem getParameter_ok_iff (key : String) (parameters : List String) :
    (getParameter key parameters).1 = true ↔ hasEntry key parameters := by
  induction parameters with
  | nil => simp [getParameter, hasEntry]
  | cons par rest ih =>
    by_cases hp : key.data <+: par.data
    · rw [getParameter_cons_hit key par rest hp]
      exact ⟨fun _ => ⟨par, List.mem_cons_self _ _, hp⟩, fun _ => rfl⟩
    · rw [getParameter_cons_miss key par rest hp, ih]
      constructor
      · rintro ⟨q, hq, hk⟩
        exact ⟨q, List.mem_cons_of_mem _ hq, hk⟩
      · rintro ⟨q, hq, hk⟩
        rcases List.mem_cons.1 hq with rfl | hq
        · exact absurd hk hp
        · exact ⟨q, hq, hk⟩

theorem getParameter_ok_false_iff (key : String) (parameters : List String) :
    (getParameter key parameters).1 = false ↔ ¬ hasEntry key parameters := by
  rw [← getParameter_ok_iff]
  cases (getParameter key parameters).1 <;> simp

theorem logError_thrown {M : Type} (w : VymModelWrapper M) (error : Error) (text : Text)
    (hctx : w.context = true) : (logError w error text).thrown = w.thrown ++ [(error, text)] := by
  simp [logError, hctx]

theorem logError_calls {M : Type} (w : VymModelWrapper M) (error : Error) (text : Text) :
    (logError w error text).calls = w.calls := by
  unfold logError
  split <;> rfl

theorem logError_model {M : Type} (w : VymModelWrapper M) (error : Error) (text : Text) :
    (logError w error text).model = w.model := by
  unfold logError
  split <;> rfl

theorem indexOf_absent (x : String) (l : List String) (h : ∀ y ∈ l, y ≠ x) :
    indexOf x l = -1 := by
  induction l with
  | nil => rfl
  | cons y ys ih =>
    have hy : y ≠ x := h y (List.mem_cons_self _ _)
    have hys : indexOf x ys = -1 := ih (fun z hz => h z (List.mem_cons_of_mem _ hz))
    simp [indexOf, hy, hys]

theorem imageFormats_ne_entry (F y : String) (hy : y ∈ imageFormats) : y ≠ "format=" ++ F := by
  intro h
  have hd : y.data.head? = some 'f' := by
    rw [h, String.data_append]
    rfl
  simp only [imageFormats, List.mem_cons, List.mem_singleton, List.not_mem_nil, or_false] at hy
  rcases hy with rfl | rfl | rfl | rfl | rfl | rfl | rfl | rfl | rfl | rfl | rfl <;>
    exact absurd hd (by decide)

theorem format_prefix_entry (F : String) : "format".data <+: ("format=" ++ F).data := by
  rw [String.data_append]
  exact ⟨"=".data ++ F.data, by simp⟩

theorem runIndent_nonneg (calls : List IndentCall) :
    ∀ curindent : Int, 0 ≤ curindent → 0 ≤ runIndent calls curindent := by
  induction calls with
  | nil => intro c hc; exact hc
  | cons call calls ih =>
    intro c hc
    cases call with
    | incIndent =>
      apply ih
      unfold incIndent
      omega
    | decIndent =>
      apply ih
      unfold decIndent
      split <;> omega

theorem indentLoop_eq (k : Nat) : ∀ s : String,
    indentLoop k s = s ++ String.mk (List.replicate k ' ') := by
  induction k with
  | zero =>
    intro s
    apply String.ext
    simp [indentLoop, String.data_append]
  | succ k ih =>
    intro s
    rw [indentLoop, ih]
    apply String.ext
    simp only [String.data_append, List.replicate_succ, List.append_assoc]
    rfl

theorem indent_eq (c : Int) (hc : 0 ≤ c) :
    ({} : XMLObj).indent c = newlinePad (4 * c.toNat) := by
  unfold XMLObj.indent newlinePad
  rw [indentLoop_eq]
  have h : (c * 4).toNat = 4 * c.toNat := by omega
  simp only [h]

/-! ## Theorems -/

/-! ### The replacements of `quotemeta` -/

theorem replaceGo_chr (c : Char) (after : List Char) (l : List Char) :
    replaceGo [RxItem.chr c] after 0 l = l.flatMap (fun x => if x = c then after else [x]) := by
  induction l with
  | nil => simp [replaceGo, matchAt]
  | cons x xs ih =>
    by_cases h : x = c
    · simp [replaceGo, matchAt, h, ih]
    · simp [replaceGo, matchAt, h, ih]

theorem replaceGo_amp (l : List Char) :
    replaceGo [RxItem.chr '&', RxItem.notAhead ['a', 'm', 'p', ';']]
      ['&', 'a', 'm', 'p', ';'] 0 l = ampStep l := by
  induction l with
  | nil => simp [replaceGo, matchAt, ampStep]
  | cons x xs ih =>
    by_cases h : x = '&'
    · by_cases hp : ['a', 'm', 'p', ';'] <+: xs
      · have hb : List.isPrefixOf ['a', 'm', 'p', ';'] xs = true := by
          simpa using hp
        simp [replaceGo, matchAt, ampStep, h, hp, hb, ih]
      · have hb : List.isPrefixOf ['a', 'm', 'p', ';'] xs = false := by
          rw [Bool.eq_false_iff, Ne, List.isPrefixOf_iff_prefix]
          exact hp
        simp [replaceGo, matchAt, ampStep, h, hp, hb, ih]
    · simp [replaceGo, matchAt, ampStep, h, ih]

theorem quotemeta_data (s : String) :
    (quotemeta s).data = (ampStep s.data).flatMap entityOf := by
  have h1 : QRegExp.ofPattern "&(?!amp;)"
      = some [RxItem.chr '&', RxItem.notAhead ['a', 'm', 'p', ';']] := by decide
  have h2 : QRegExp.ofPattern ">" = some [RxItem.chr '>'] := by decide
  have h3 : QRegExp.ofPattern "<" = some [RxItem.chr '<'] := by decide
  have h4 : QRegExp.ofPattern "\"" = some [RxItem.chr (Char.ofNat 34)] := by decide
  have e1 : "&amp;".data = ['&', 'a', 'm', 'p', ';'] := rfl
  have e2 : "&gt;".data = ['&', 'g', 't', ';'] := rfl
  have e3 : "&lt;".data = ['&', 'l', 't', ';'] := rfl
  have e4 : "&quot;".data = ['&', 'q', 'u', 'o', 't', ';'] := rfl
  unfold quotemeta
  simp only [h1, h2, h3, h4, replace, e1, e2, e3, e4, replaceGo_chr, replaceGo_amp,
    List.flatMap_assoc]
  congr 1
  funext x
  unfold entityOf
  by_cases hx1 : x = '>'
  · subst hx1; simp
  · by_cases hx2 : x = '<'
    · subst hx2; simp
    · by_cases hx3 : x = Char.ofNat 34
      · subst hx3; simp
      · simp [hx1, hx2, hx3]

theorem entityOf_clean (x c : Char) (hc : c ∈ ['<', '>', Char.ofNat 34]) :
    c ∉ entityOf x := by
  intro hmem
  unfold entityOf at hmem
  simp only [List.mem_cons, List.mem_singleton, List.not_mem_nil, or_false] at hc
  split_ifs at hmem with h1 h2 h3
  · rcases hc with rfl | rfl | rfl <;> revert hmem <;> decide
  · rcases hc with rfl | rfl | rfl <;> revert hmem <;> decide
  · rcases hc with rfl | rfl | rfl <;> revert hmem <;> decide
  · rw [List.mem_singleton] at hmem
    subst hmem
    rcases hc with h | h | h
    · exact h2 h
    · exact h1 h
    · exact h3 h

theorem ampersandsEscaped_entityOf (x : Char) (t : List Char)
    (hx : x = '&' → EntityTail t) (ht : AmpersandsEscaped t) :
    AmpersandsEscaped (entityOf x ++ t) := by
  unfold entityOf
  split_ifs with h1 h2 h3
  · simp [AmpersandsEscaped, EntityTail, ht]
  · simp [AmpersandsEscaped, EntityTail, ht]
  · simp [AmpersandsEscaped, EntityTail, ht]
  · exact ⟨hx, ht⟩

theorem ampersandsEscaped_amp (t : List Char) (ht : AmpersandsEscaped t) :
    AmpersandsEscaped (['&', 'a', 'm', 'p', ';'] ++ t) := by
  simp [AmpersandsEscaped, EntityTail, ht]

theorem ampStep_keeps_tail (cs : List Char) (h : ['a', 'm', 'p', ';'] <+: cs) :
    ['a', 'm', 'p', ';'] <+: (ampStep cs).flatMap entityOf := by
  obtain ⟨rest, rfl⟩ := h
  simp [ampStep, entityOf]

theorem ampersandsEscaped_quotemeta (l : List Char) :
    AmpersandsEscaped ((ampStep l).flatMap entityOf) := by
  induction l with
  | nil => simp [ampStep, AmpersandsEscaped]
  | cons c cs ih =>
    by_cases h : c = '&' ∧ ¬ ['a', 'm', 'p', ';'] <+: cs
    · have e : ampStep (c :: cs) = ['&', 'a', 'm', 'p', ';'] ++ ampStep cs := by
        rw [ampStep, if_pos h]
      have e1 : (['&', 'a', 'm', 'p', ';'] : List Char).flatMap entityOf
          = ['&', 'a', 'm', 'p', ';'] := by decide
      rw [e, List.flatMap_append, e1]
      exact ampersandsEscaped_amp _ ih
    · have e : ampStep (c :: cs) = c :: ampStep cs := by
        rw [ampStep, if_neg h]
      rw [e, List.flatMap_cons]
      refine ampersandsEscaped_entityOf c _ (fun hc => ?_) ih
      have hp : ['a', 'm', 'p', ';'] <+: cs := by
        by_contra hn
        exact h ⟨hc, hn⟩
      exact Or.inl (ampStep_keeps_tail cs hp)

theorem ampersandsEscaped_split (l : List Char) (h : AmpersandsEscaped l) :
    ∀ pre post : List Char, l = pre ++ '&' :: post → EntityTail post := by
  induction l with
  | nil =>
    intro pre post e
    cases pre <;> simp at e
  | cons c cs ih =>
    intro pre post e
    cases pre with
    | nil =>
      simp only [List.nil_append, List.cons.injEq] at e
      obtain ⟨rfl, rfl⟩ := e
      exact h.1 rfl
    | cons p pre =>
      simp only [List.cons_append, List.cons.injEq] at e
      exact ih h.2 pre post e.2

theorem ampTail_before_amp (pre post : List Char) :
    ['a', 'm', 'p', ';'] <+: pre ++ '&' :: 'a' :: 'm' :: 'p' :: ';' :: post
      ↔ ['a', 'm', 'p', ';'] <+: pre := by
  rcases pre with _ | ⟨a1, _ | ⟨a2, _ | ⟨a3, _ | ⟨a4, pre⟩⟩⟩⟩ <;>
    simp [List.prefix_cons_inj, List.cons_prefix_cons]

theorem ampStep_keeps_amp (pre post : List Char) :
    ampStep (pre ++ ['&', 'a', 'm', 'p', ';'] ++ post)
      = ampStep pre ++ ['&', 'a', 'm', 'p', ';'] ++ ampStep post := by
  induction pre with
  | nil => simp [ampStep]
  | cons c cs ih =>
    simp only [List.cons_append, List.append_assoc, List.nil_append] at ih ⊢
    by_cases h : c = '&' ∧ ¬ ['a', 'm', 'p', ';'] <+: cs
    · have h1 : c = '&' ∧ ¬ ['a', 'm', 'p', ';'] <+: cs ++ '&' :: 'a' :: 'm' :: 'p' :: ';' :: post :=
        ⟨h.1, fun hp => h.2 ((ampTail_before_amp cs post).1 hp)⟩
      rw [ampStep, if_pos h1, ampStep, if_pos h, ih]
      simp
    · have h1 : ¬ (c = '&' ∧
          ¬ ['a', 'm', 'p', ';'] <+: cs ++ '&' :: 'a' :: 'm' :: 'p' :: ';' :: post) :=
        fun hp => h ⟨hp.1, fun hq => hp.2 ((ampTail_before_amp cs post).2 hq)⟩
      rw [ampStep, if_neg h1, ampStep, if_neg h, ih]
      simp

/-! ## The claims -/

/-- C2: `getParameter` sets `ok` exactly when some entry begins with the key; it then
returns the whole text of the first such entry in list order, and an invalid value
when there is none.  For `["filenames=x","filename=y"]` and key `filename` the result
is `"filenames=x"`. -/
theorem getParameter_first_match (key : String) (parameters : List String) :
    ((getParameter key parameters).1 = true ↔ hasEntry key parameters) ∧
    (∀ pre par post, parameters = pre ++ par :: post →
      (∀ q ∈ pre, ¬ key.data <+: q.data) → key.data <+: par.data →
      (getParameter key parameters).2 = QVariant.str par) ∧
    (¬ hasEntry key parameters → (getParameter key parameters).2 = QVariant.Invalid) ∧
    getParameter "filename" ["filenames=x", "filename=y"]
      = (true, QVariant.str "filenames=x") := by
  refine ⟨getParameter_ok_iff key parameters, ?_, ?_, by decide⟩
  · intro pre par post hsplit hpre hpar
    subst hsplit
    induction pre with
    | nil => rw [List.nil_append, getParameter_cons_hit key par post hpar]
    | cons q pre ih =>
      rw [List.cons_append, getParameter_cons_miss key q _ (hpre q (List.mem_cons_self _ _))]
      exact ih (fun r hr => hpre r (List.mem_cons_of_mem _ hr))
  · intro hnone
    induction parameters with
    | nil => rfl
    | cons par rest ih =>
      rw [getParameter_cons_miss key par rest
        (fun h => hnone ⟨par, List.mem_cons_self _ _, h⟩)]
      exact ih (fun ⟨q, hq, hk⟩ => hnone ⟨q, List.mem_cons_of_mem _ hq, hk⟩)

/-- Witness for C2: in `["a=1","filename=y","filename=z"]` the first entry that begins
with `filename` is returned. -/
theorem getParameter_first_match_witness :
    (getParameter "filename" ["a=1", "filename=y", "filename=z"]).2
      = QVariant.str "filename=y" :=
  (getParameter_first_match "filename" ["a=1", "filename=y", "filename=z"]).2.1
    ["a=1"] "filename=y" ["filename=z"] rfl (by decide) (by decide)

theorem exportOutcome_AO {M : Type} (I : VymModel M) (parameters : List String)
    (w : VymModelWrapper M) (hctx : w.context = true) :
    ExportOutcome I "AO" parameters w := by
  by_cases hF : hasEntry "filename" parameters <;>
  by_cases hP : hasEntry "path" parameters <;>
  by_cases hT : hasEntry "template" parameters <;>
  simp [ExportOutcome, exportMap, specAccepts, specRequiredKeys, getParameter_ok_false_iff,
    hF, hP, hT, logError, invoke, hctx]

theorem exportOutcome_ASCII {M : Type} (I : VymModel M) (parameters : List String)
    (w : VymModelWrapper M) (hctx : w.context = true) :
    ExportOutcome I "ASCII" parameters w := by
  by_cases hF : hasEntry "filename" parameters <;>
  by_cases hP : hasEntry "path" parameters <;>
  by_cases hT : hasEntry "template" parameters <;>
  simp [ExportOutcome, exportMap, specAccepts, specRequiredKeys, getParameter_ok_false_iff,
    hF, hP, hT, logError, invoke, hctx]

theorem exportOutcome_CSV {M : Type} (I : VymModel M) (parameters : List String)
    (w : VymModelWrapper M) (hctx : w.context = true) :
    ExportOutcome I "CSV" parameters w := by
  by_cases hF : hasEntry "filename" parameters <;>
  by_cases hP : hasEntry "path" parameters <;>
  by_cases hT : hasEntry "template" parameters <;>
  simp [ExportOutcome, exportMap, specAccepts, specRequiredKeys, getParameter_ok_false_iff,
    hF, hP, hT, logError, invoke, hctx]

theorem exportOutcome_HTML {M : Type} (I : VymModel M) (parameters : List String)
    (w : VymModelWrapper M) (hctx : w.context = true) :
    ExportOutcome I "HTML" parameters w := by
  by_cases hF : hasEntry "filename" parameters <;>
  by_cases hP : hasEntry "path" parameters <;>
  by_cases hT : hasEntry "template" parameters <;>
  simp [ExportOutcome, exportMap, specAccepts, specRequiredKeys, getParameter_ok_false_iff,
    hF, hP, hT, logError, invoke, hctx]

theorem exportOutcome_Impress {M : Type} (I : VymModel M) (parameters : List String)
    (w : VymModelWrapper M) (hctx : w.context = true) :
    ExportOutcome I "Impress" parameters w := by
  by_cases hF : hasEntry "filename" parameters <;>
  by_cases hP : hasEntry "path" parameters <;>
  by_cases hT : hasEntry "template" parameters <;>
  simp [ExportOutcome, exportMap, specAccepts, specRequiredKeys, getParameter_ok_false_iff,
    hF, hP, hT, logError, invoke, hctx]

theorem exportOutcome_Last {M : Type} (I : VymModel M) (parameters : List String)
    (w : VymModelWrapper M) (hctx : w.context = true) :
    ExportOutcome I "Last" parameters w := by
  by_cases hF : hasEntry "filename" parameters <;>
  by_cases hP : hasEntry "path" parameters <;>
  by_cases hT : hasEntry "template" parameters <;>
  simp [ExportOutcome, exportMap, specAccepts, specRequiredKeys, getParameter_ok_false_iff,
    hF, hP, hT, logError, invoke, hctx]

theorem exportOutcome_LaTeX {M : Type} (I : VymModel M) (parameters : List String)
    (w : VymModelWrapper M) (hctx : w.context = true) :
    ExportOutcome I "LaTeX" parameters w := by
  by_cases hF : hasEntry "filename" parameters <;>
  by_cases hP : hasEntry "path" parameters <;>
  by_cases hT : hasEntry "template" parameters <;>
  simp [ExportOutcome, exportMap, specAccepts, specRequiredKeys, getParameter_ok_false_iff,
    hF, hP, hT, logError, invoke, hctx]

theorem exportOutcome_OrgMode {M : Type} (I : VymModel M) (parameters : List String)
    (w : VymModelWrapper M) (hctx : w.context = true) :
    ExportOutcome I "OrgMode" parameters w := by
  by_cases hF : hasEntry "filename" parameters <;>
  by_cases hP : hasEntry "path" parameters <;>
  by_cases hT : hasEntry "template" parameters <;>
  simp [ExportOutcome, exportMap, specAccepts, specRequiredKeys, getParameter_ok_false_iff,
    hF, hP, hT, logError, invoke, hctx]

theorem exportOutcome_PDF {M : Type} (I : VymModel M) (parameters : List String)
    (w : VymModelWrapper M) (hctx : w.context = true) :
    ExportOutcome I "PDF" parameters w := by
  by_cases hF : hasEntry "filename" parameters <;>
  by_cases hP : hasEntry "path" parameters <;>
  by_cases hT : hasEntry "template" parameters <;>
  simp [ExportOutcome, exportMap, specAccepts, specRequiredKeys, getParameter_ok_false_iff,
    hF, hP, hT, logError, invoke, hctx]

theorem exportOutcome_SVG {M : Type} (I : VymModel M) (parameters : List String)
    (w : VymModelWrapper M) (hctx : w.context = true) :
    ExportOutcome I "SVG" parameters w := by
  by_cases hF : hasEntry "filename" parameters <;>
  by_cases hP : hasEntry "path" parameters <;>
  by_cases hT : hasEntry "template" parameters <;>
  simp [ExportOutcome, exportMap, specAccepts, specRequiredKeys, getParameter_ok_false_iff,
    hF, hP, hT, logError, invoke, hctx]

theorem exportOutcome_XML {M : Type} (I : VymModel M) (parameters : List String)
    (w : VymModelWrapper M) (hctx : w.context = true) :
    ExportOutcome I "XML" parameters w := by
  by_cases hF : hasEntry "filename" parameters <;>
  by_cases hP : hasEntry "path" parameters <;>
  by_cases hT : hasEntry "template" parameters <;>
  simp [ExportOutcome, exportMap, specAccepts, specRequiredKeys, getParameter_ok_false_iff,
    hF, hP, hT, logError, invoke, hctx]

theorem exportOutcome_unknown {M : Type} (I : VymModel M) (format : String)
    (parameters : List String) (w : VymModelWrapper M) (hctx : w.context = true)
    (hfmt : format ≠ "Image")
    (h0 : format ≠ "AO") (h1 : format ≠ "ASCII") (h2 : format ≠ "CSV") (h3 : format ≠ "HTML") (h4 : format ≠ "Impress") (h5 : format ≠ "Last") (h6 : format ≠ "LaTeX") (h7 : format ≠ "OrgMode") (h8 : format ≠ "PDF") (h9 : format ≠ "SVG") (h10 : format ≠ "XML") :
    ExportOutcome I format parameters w := by
  have hspec : specRequiredKeys format = none := by
    unfold specRequiredKeys
    simp only [h0, h1, h2, h3, h4, h5, h6, h7, h8, h9, h10, if_false]
  have hno : ¬ specAccepts format parameters := by
    rintro ⟨keys, hk, _⟩
    rw [hspec] at hk
    exact Option.noConfusion hk
  have hmap : exportMap I format parameters w =
      if (getParameter "filename" parameters).1 = false ∧ format ≠ "Last" then
        (false, logError w Error.SyntaxError
          (Text.arg (Text.lit "Filename missing in export to %1") format))
      else
        (false, logError w Error.SyntaxError
          (Text.arg (Text.lit "Unknown export format: %1") format)) := by
    unfold exportMap
    simp only [h0, h1, h2, h3, h4, h5, h6, h7, h8, h9, h10, hfmt, if_false]
  refine Or.inr ?_
  rw [hmap]
  split_ifs
  · exact ⟨rfl, ⟨_, logError_thrown w _ _ hctx⟩, logError_calls w _ _, logError_model w _ _, hno⟩
  · exact ⟨rfl, ⟨_, logError_thrown w _ _ hctx⟩, logError_calls w _ _, logError_model w _ _, hno⟩

theorem exportOutcome_all {M : Type} (I : VymModel M) (format : String)
    (parameters : List String) (w : VymModelWrapper M) (hctx : w.context = true)
    (hfmt : format ≠ "Image") : ExportOutcome I format parameters w := by
  by_cases h0 : format = "AO"
  · subst h0
    exact exportOutcome_AO I parameters w hctx
  by_cases h1 : format = "ASCII"
  · subst h1
    exact exportOutcome_ASCII I parameters w hctx
  by_cases h2 : format = "CSV"
  · subst h2
    exact exportOutcome_CSV I parameters w hctx
  by_cases h3 : format = "HTML"
  · subst h3
    exact exportOutcome_HTML I parameters w hctx
  by_cases h4 : format = "Impress"
  · subst h4
    exact exportOutcome_Impress I parameters w hctx
  by_cases h5 : format = "Last"
  · subst h5
    exact exportOutcome_Last I parameters w hctx
  by_cases h6 : format = "LaTeX"
  · subst h6
    exact exportOutcome_LaTeX I parameters w hctx
  by_cases h7 : format = "OrgMode"
  · subst h7
    exact exportOutcome_OrgMode I parameters w hctx
  by_cases h8 : format = "PDF"
  · subst h8
    exact exportOutcome_PDF I parameters w hctx
  by_cases h9 : format = "SVG"
  · subst h9
    exact exportOutcome_SVG I parameters w hctx
  by_cases h10 : format = "XML"
  · subst h10
    exact exportOutcome_XML I parameters w hctx
  exact exportOutcome_unknown I format parameters w hctx hfmt h0 h1 h2 h3 h4 h5 h6 h7 h8 h9 h10

/-- C1: with a script context attached and a format other than `Image`, `exportMap`
returns true without raising an error exactly when the format is in the dispatch
table and every required key of its row has an entry beginning with that key; in
every other case it raises exactly one syntax error, sends no command to the model
(so invokes no exporter) and returns false. -/
theorem exportMap_contract {M : Type} (I : VymModel M) (format : String)
    (parameters : List String) (w : VymModelWrapper M)
    (hctx : w.context = true) (hfmt : format ≠ "Image") :
    (((exportMap I format parameters w).1 = true ∧
        (exportMap I format parameters w).2.thrown = w.thrown) ↔
      specAccepts format parameters) ∧
    (¬ specAccepts format parameters →
      (exportMap I format parameters w).1 = false ∧
      (∃ text, (exportMap I format parameters w).2.thrown
        = w.thrown ++ [(Error.SyntaxError, text)]) ∧
      (exportMap I format parameters w).2.calls = w.calls ∧
      (exportMap I format parameters w).2.model = w.model) := by
  rcases exportOutcome_all I format parameters w hctx hfmt with
    ⟨h1, h2, h3⟩ | ⟨h1, ⟨text, h2⟩, h3, h4, h5⟩
  · exact ⟨⟨fun _ => h3, fun _ => ⟨h1, h2⟩⟩, fun hn => absurd h3 hn⟩
  · refine ⟨⟨fun h => ?_, fun h => absurd h h5⟩, fun _ => ⟨h1, ⟨text, h2⟩, h3, h4⟩⟩
    rw [h1] at h
    exact absurd h.1 (by decide)

/-- Witness for C1: `exportMap("Impress", ["filename=/tmp/o.odp"])` lacks the template
key, so it raises one syntax error, sends no command and returns false. -/
theorem exportMap_contract_witness :
    (exportMap refusingModel "Impress" ["filename=/tmp/o.odp"] freshWrapper).1 = false ∧
    (∃ text, (exportMap refusingModel "Impress" ["filename=/tmp/o.odp"] freshWrapper).2.thrown
      = freshWrapper.thrown ++ [(Error.SyntaxError, text)]) ∧
    (exportMap refusingModel "Impress" ["filename=/tmp/o.odp"] freshWrapper).2.calls
      = freshWrapper.calls ∧
    (exportMap refusingModel "Impress" ["filename=/tmp/o.odp"] freshWrapper).2.model
      = freshWrapper.model :=
  (exportMap_contract refusingModel "Impress" ["filename=/tmp/o.odp"] freshWrapper rfl
    (by decide)).2 (by
      rintro ⟨keys, hk, hall⟩
      have hk2 : keys = ["filename", "template"] := by
        have : specRequiredKeys "Impress" = some ["filename", "template"] := by decide
        rw [this] at hk
        exact (Option.some.inj hk).symm
      subst hk2
      obtain ⟨par, hpar, hpre⟩ := hall "template" (by simp)
      simp only [List.mem_singleton] at hpar
      subst hpar
      revert hpre
      decide)

/-- C3: with a script context attached and no branch selected, each of `addBranch`,
`scroll`, `unscroll`, `setFlag`, `unsetFlag`, `setURL`, `setVymLink`, `branchCount`,
`getFrameType`, `selectFirstBranch`, `selectLastBranch` and `selectLastImage` raises
exactly one reference error, sends no command to the model or to a branch, and
returns its neutral value. -/
theorem selection_guard {M : Type} (I : VymModel M) (w : VymModelWrapper M) (s : String)
    (hctx : w.context = true) (hsel : I.getSelectedBranch w.model = none) :
    GuardFailed w (addBranch I w) ∧
    GuardFailed w (scroll I w) ∧
    ((unscroll I w).1 = false ∧ GuardFailed w (unscroll I w).2) ∧
    GuardFailed w (setFlag I s w) ∧
    GuardFailed w (unsetFlag I s w) ∧
    GuardFailed w (setURL I s w) ∧
    GuardFailed w (setVymLink I s w) ∧
    ((branchCount I w).1 = -1 ∧ GuardFailed w (branchCount I w).2) ∧
    ((getFrameType I w).1 = "" ∧ GuardFailed w (getFrameType I w).2) ∧
    ((selectFirstBranch I w).1 = false ∧ GuardFailed w (selectFirstBranch I w).2) ∧
    ((selectLastBranch I w).1 = false ∧ GuardFailed w (selectLastBranch I w).2) ∧
    ((selectLastImage I w).1 = false ∧ GuardFailed w (selectLastImage I w).2) := by
  simp [GuardFailed, addBranch, scroll, unscroll, setFlag, unsetFlag, setURL, setVymLink,
    branchCount, getFrameType, selectFirstBranch, selectLastBranch, selectLastImage,
    getSelectedBranch, hsel, logError, hctx]

/-- Witness for C3: on a model without selection `branchCount` gives -1 after one
reference error and no command. -/
theorem selection_guard_witness :
    (branchCount refusingModel freshWrapper).1 = -1 ∧
    GuardFailed freshWrapper (branchCount refusingModel freshWrapper).2 :=
  (selection_guard refusingModel freshWrapper "" rfl rfl).2.2.2.2.2.2.2.1

/-- C4 (behaviour of the code): with a script context attached, for every string `F`,
`exportMap("Image", ["filename=x", "format=" ++ F])` compares the whole entry
`format=F` with the list of image formats, so it raises one syntax error, sends no
command to the model and returns false; this holds for `F = "PNG"` as well. -/
theorem exportMap_image_explicit_format {M : Type} (I : VymModel M) (F : String)
    (w : VymModelWrapper M) (hctx : w.context = true) :
    (exportMap I "Image" ["filename=x", "format=" ++ F] w).1 = false ∧
    (exportMap I "Image" ["filename=x", "format=" ++ F] w).2.thrown
      = w.thrown ++ [(Error.SyntaxError,
          Text.arg (Text.arg (Text.lit "%1 not one of the known export formats: ")
            ("format=" ++ F)) (String.intercalate "," imageFormats))] ∧
    (exportMap I "Image" ["filename=x", "format=" ++ F] w).2.calls = w.calls := by
  have hfile : getParameter "filename" ["filename=x", "format=" ++ F]
      = (true, QVariant.str "filename=x") :=
    getParameter_cons_hit "filename" "filename=x" _ (by decide)
  have hform : getParameter "format" ["filename=x", "format=" ++ F]
      = (true, QVariant.str ("format=" ++ F)) := by
    rw [getParameter_cons_miss "format" "filename=x" _ (by decide)]
    exact getParameter_cons_hit "format" _ _ (format_prefix_entry F)
  have hidx : indexOf ("format=" ++ F) imageFormats = -1 :=
    indexOf_absent _ _ (fun y hy => imageFormats_ne_entry F y hy)
  simp [exportMap, hfile, hform, QVariant.toString, hidx, logError, hctx]

/-- Witness for C4: the call with `format=PNG` is rejected. -/
theorem exportMap_image_explicit_format_witness :
    (exportMap refusingModel "Image" ["filename=x", "format=" ++ "PNG"] freshWrapper).1 = false ∧
    (exportMap refusingModel "Image" ["filename=x", "format=" ++ "PNG"] freshWrapper).2.thrown
      = freshWrapper.thrown ++ [(Error.SyntaxError,
          Text.arg (Text.arg (Text.lit "%1 not one of the known export formats: ")
            ("format=" ++ "PNG")) (String.intercalate "," imageFormats))] ∧
    (exportMap refusingModel "Image" ["filename=x", "format=" ++ "PNG"] freshWrapper).2.calls
      = freshWrapper.calls :=
  exportMap_image_explicit_format refusingModel "PNG" freshWrapper rfl

/-- C5 (behaviour of the code): the first pattern of `unquotemeta`, `&amp;)`, is
invalid and never matches, so `&amp;` is not turned back into `&`:
`unquotemeta(quotemeta("&"))` is `"&amp;"`, not `"&"`. -/
theorem unquotemeta_quotemeta_amp :
    QRegExp.ofPattern "&amp;)" = none ∧
    quotemeta "&" = "&amp;" ∧
    unquotemeta (quotemeta "&") = "&amp;" ∧
    unquotemeta (quotemeta "&") ≠ "&" := by
  decide

/-- C6: starting from `curindent = 0`, after every finite sequence of `incIndent` and
`decIndent` calls `curindent` is non-negative; `decIndent` at 0 leaves 0 and at a
positive value decrements by exactly one. -/
theorem curindent_nonneg (calls : List IndentCall) :
    0 ≤ runIndent calls 0 ∧ decIndent 0 = 0 ∧
    ∀ curindent : Int, 0 < curindent → decIndent curindent = curindent - 1 := by
  refine ⟨runIndent_nonneg calls 0 (le_refl 0), by decide, ?_⟩
  intro c hc
  unfold decIndent
  split <;> omega

/-- Witness for C6: `decIndent` at 3 gives 2. -/
theorem curindent_nonneg_witness : decIndent 3 = 3 - 1 :=
  (curindent_nonneg [IndentCall.decIndent, IndentCall.incIndent]).2.2 3 (by decide)

/-- C7: at indent depth `c ≥ 0` (with `indentwidth = 4`) every element builder returns
a newline, exactly `4*c` spaces and the element text: `<tag attrs />`, `<tag>`,
`<tag attrs>`, `</tag>`, `<tag>value</tag>`, `<tag attrs>value</tag>`; and
`singleElement("link", "href=\"x\"")` at depth 0 is `"\n<link href=\"x\" />"`. -/
theorem element_builders (c : Int) (hc : 0 ≤ c) (tag attrs value : String) :
    ({} : XMLObj).singleElement c tag attrs
      = newlinePad (4 * c.toNat) ++ "<" ++ tag ++ " " ++ attrs ++ " />" ∧
    ({} : XMLObj).beginElement c tag = newlinePad (4 * c.toNat) ++ "<" ++ tag ++ ">" ∧
    ({} : XMLObj).beginElementAt c tag attrs
      = newlinePad (4 * c.toNat) ++ "<" ++ tag ++ " " ++ attrs ++ ">" ∧
    ({} : XMLObj).endElement c tag = newlinePad (4 * c.toNat) ++ "</" ++ tag ++ ">" ∧
    ({} : XMLObj).valueElement c tag value
      = newlinePad (4 * c.toNat) ++ "<" ++ tag ++ ">" ++ value ++ "</" ++ tag ++ ">" ∧
    ({} : XMLObj).valueElementAt c tag value attrs
      = newlinePad (4 * c.toNat) ++ "<" ++ tag ++ " " ++ attrs ++ ">" ++ value
        ++ "</" ++ tag ++ ">" ∧
    ({} : XMLObj).singleElement 0 "link" "href=\"x\"" = "\n<link href=\"x\" />" := by
  refine ⟨?_, ?_, ?_, ?_, ?_, ?_, by decide⟩
  · unfold XMLObj.singleElement
    rw [indent_eq c hc]
    apply String.ext
    simp only [String.data_append, List.append_assoc]
    rfl
  · unfold XMLObj.beginElement
    rw [indent_eq c hc]
  · unfold XMLObj.beginElementAt
    rw [indent_eq c hc]
  · unfold XMLObj.endElement
    rw [indent_eq c hc]
  · unfold XMLObj.valueElement
    rw [indent_eq c hc]
  · unfold XMLObj.valueElementAt
    rw [indent_eq c hc]

/-- Witness for C7: at depth 2 the empty element is preceded by a newline and 8 spaces. -/
theorem element_builders_witness :
    ({} : XMLObj).singleElement 2 "a" "b" = newlinePad (4 * (2 : Int).toNat) ++ "<" ++ "a"
      ++ " " ++ "b" ++ " />" :=
  (element_builders 2 (by decide) "a" "b" "").1

/-- C8: with a script context attached, `removeSlide(n)` raises exactly one range
error if `n < 0` or `n ≥ slideCount - 1` and no error otherwise; in both cases it
sends no command to the model and leaves the model state, hence its slide sequence,
as it was. -/
theorem removeSlide_only_checks {M : Type} (I : VymModel M) (n : Int)
    (w : VymModelWrapper M) (hctx : w.context = true) :
    ((n < 0 ∨ n ≥ I.slideCount w.model - 1) →
      ∃ text, (removeSlide I n w).thrown = w.thrown ++ [(Error.RangeError, text)]) ∧
    (¬ (n < 0 ∨ n ≥ I.slideCount w.model - 1) → (removeSlide I n w).thrown = w.thrown) ∧
    (removeSlide I n w).calls = w.calls ∧
    (removeSlide I n w).model = w.model := by
  unfold removeSlide
  refine ⟨fun h => ?_, fun h => ?_, ?_, ?_⟩
  · rw [if_pos h]
    exact ⟨_, logError_thrown w _ _ hctx⟩
  · rw [if_neg h]
  · split
    · exact logError_calls w _ _
    · rfl
  · split
    · exact logError_model w _ _
    · rfl

/-- Witness for C8: `removeSlide(-1)` raises one range error. -/
theorem removeSlide_only_checks_witness :
    ∃ text, (removeSlide refusingModel (-1) freshWrapper).thrown
      = freshWrapper.thrown ++ [(Error.RangeError, text)] :=
  (removeSlide_only_checks refusingModel (-1) freshWrapper rfl).1 (Or.inl (by decide))

/-- C9 (counterexample): on a model without selection, with a script context
attached, `addBranchBefore` sends the command `addNewBranchBefore` to the model and
raises an unknown error, not a reference error. -/
theorem addBranchBefore_unguarded :
    refusingModel.getSelectedBranch freshWrapper.model = none ∧
    freshWrapper.context = true ∧
    (addBranchBefore refusingModel freshWrapper).calls = [ModelCall.addNewBranchBefore] ∧
    (addBranchBefore refusingModel freshWrapper).thrown
      = [(Error.UnknownError, Text.lit "Couldn't add branch before selection to map")] ∧
    ¬ ((∃ text, (addBranchBefore refusingModel freshWrapper).thrown
          = freshWrapper.thrown ++ [(Error.ReferenceError, text)]) ∧
        (addBranchBefore refusingModel freshWrapper).calls = freshWrapper.calls) := by
  refine ⟨rfl, rfl, by decide, by decide, ?_⟩
  rintro ⟨_, hcalls⟩
  revert hcalls
  decide

/-- C9 (amended): with a script context attached, whether or not a branch is
selected, `addBranchBefore` sends exactly one command, `addNewBranchBefore`, to the
model; it raises exactly one unknown error when the model refuses the command and no
error otherwise, so it never raises a reference error. -/
theorem addBranchBefore_delegates {M : Type} (I : VymModel M) (w : VymModelWrapper M)
    (hctx : w.context = true) :
    (addBranchBefore I w).calls = w.calls ++ [ModelCall.addNewBranchBefore] ∧
    (addBranchBefore I w).model = (I.exec ModelCall.addNewBranchBefore w.model).2 ∧
    ((I.exec ModelCall.addNewBranchBefore w.model).1 = false →
      (addBranchBefore I w).thrown = w.thrown ++ [(Error.UnknownError,
        Text.lit "Couldn't add branch before selection to map")]) ∧
    ((I.exec ModelCall.addNewBranchBefore w.model).1 = true →
      (addBranchBefore I w).thrown = w.thrown) ∧
    ∀ text, (Error.ReferenceError, text) ∈ (addBranchBefore I w).thrown →
      (Error.ReferenceError, text) ∈ w.thrown := by
  cases h : (I.exec ModelCall.addNewBranchBefore w.model).1 <;>
    simp [addBranchBefore, invoke, logError, hctx, h]

/-- Witness for C9 (amended): the refusing model receives the command and one unknown
error is raised. -/
theorem addBranchBefore_delegates_witness :
    (addBranchBefore refusingModel freshWrapper).thrown
      = freshWrapper.thrown ++ [(Error.UnknownError,
        Text.lit "Couldn't add branch before selection to map")] :=
  (addBranchBefore_delegates refusingModel freshWrapper rfl).2.2.1 rfl

/-- C10 (behaviour of the code): for every `s`, `quoteQuotes(s)` is `s` with a
backslash put before each `"`; but the pattern of `unquoteQuotes` is an escaped quote,
which matches the quote alone, and the replacement is a quote again, so
`unquoteQuotes` returns its argument unchanged: `unquoteQuotes(quoteQuotes("\""))` is
a backslash followed by a quote, not `"\""`. -/
theorem unquoteQuotes_keeps_backslash (s : String) :
    (quoteQuotes s).data = s.data.flatMap
      (fun x => if x = Char.ofNat 34 then [Char.ofNat 92, Char.ofNat 34] else [x]) ∧
    QRegExp.ofPattern "\\\"" = some [RxItem.chr (Char.ofNat 34)] ∧
    unquoteQuotes s = s ∧
    quoteQuotes "\"" = "\\\"" ∧
    unquoteQuotes (quoteQuotes "\"") = "\\\"" ∧
    unquoteQuotes (quoteQuotes "\"") ≠ "\"" := by
  have h1 : QRegExp.ofPattern "\"" = some [RxItem.chr (Char.ofNat 34)] := by decide
  have h2 : QRegExp.ofPattern "\\\"" = some [RxItem.chr (Char.ofNat 34)] := by decide
  refine ⟨?_, h2, ?_, by decide, by decide, by decide⟩
  · unfold quoteQuotes
    simp only [h1, replace, replaceGo_chr]
  · unfold unquoteQuotes
    apply String.ext
    simp only [h2, replace, replaceGo_chr]
    induction s.data with
    | nil => rfl
    | cons x xs ih =>
      rw [List.flatMap_cons, ih]
      by_cases hx : x = Char.ofNat 34
      · rw [if_pos hx, hx]
        rfl
      · rw [if_neg hx]
        rfl

/-- C11: for every string `s`, `quotemeta(s)` holds none of the characters `<`, `>`,
`"`, and every `&` in it is immediately followed by `amp;`, `gt;`, `lt;` or `quot;`;
`quotemeta("A & B < C")` is `"A &amp; B &lt; C"`; an `&amp;` present in the argument
is left as it is, the text before it and the text after it being escaped as they
would be alone, for example `quotemeta("A &amp; B")` is `"A &amp; B"`. -/
theorem quotemeta_escapes (s : String) :
    (∀ c ∈ "<>\"".data, c ∉ (quotemeta s).data) ∧
    (∀ pre post : String, quotemeta s = pre ++ "&" ++ post →
      startsWith post "amp;" = true ∨ startsWith post "gt;" = true ∨
        startsWith post "lt;" = true ∨ startsWith post "quot;" = true) ∧
    quotemeta "A & B < C" = "A &amp; B &lt; C" ∧
    (∀ pre post : String,
      quotemeta (pre ++ "&amp;" ++ post) = quotemeta pre ++ "&amp;" ++ quotemeta post) ∧
    quotemeta "A &amp; B" = "A &amp; B" := by
  refine ⟨?_, ?_, by decide, ?_, by decide⟩
  · intro c hc hmem
    have e : "<>\"".data = ['<', '>', Char.ofNat 34] := by decide
    rw [e] at hc
    rw [quotemeta_data, List.mem_flatMap] at hmem
    obtain ⟨x, _, hx⟩ := hmem
    exact entityOf_clean x c hc hx
  · intro pre post e
    have e1 : (ampStep s.data).flatMap entityOf = pre.data ++ '&' :: post.data := by
      rw [← quotemeta_data, e]
      simp only [String.data_append, List.append_assoc]
      rfl
    have h := ampersandsEscaped_split _ (ampersandsEscaped_quotemeta s.data) _ _ e1
    simp only [startsWith_iff]
    exact h
  · intro pre post
    have e1 : (['&', 'a', 'm', 'p', ';'] : List Char).flatMap entityOf
        = ['&', 'a', 'm', 'p', ';'] := by decide
    have e2 : "&amp;".data = ['&', 'a', 'm', 'p', ';'] := rfl
    apply String.ext
    simp only [String.data_append, quotemeta_data, e2, ampStep_keeps_amp,
      List.flatMap_append, e1]

/-- Witness for C11: in `quotemeta("A & B")` the text after the ampersand starts with
one of the four entity names. -/
theorem quotemeta_escapes_witness :
    startsWith "amp; B" "amp;" = true ∨ startsWith "amp; B" "gt;" = true ∨
      startsWith "amp; B" "lt;" = true ∨ startsWith "amp; B" "quot;" = true :=
  (quotemeta_escapes "A & B").2.1 "A " "amp; B" (by decide)

end Vym
